import Mathlib

/-!
Verification of the DroneSafariGame engine (src/drone_safari_game.py).

The game state machine is embedded shallowly: the mutable `DroneSafariGame`
object becomes an explicit `GameState` record, and each tool method
(`move`, `turn`, `take_picture`, `get_status`, `reset_game`) becomes a pure
function returning the result message together with the successor state.
Machine details kept from the source: the grid holds the numeric cell codes
0..4, positions are integer pairs that may leave the grid exactly at a
boundary crash, facing directions and relative moves are the source's
strings, and every result message is transcribed verbatim.
-/

namespace DroneSafari

/-- Grid side length (drone_safari_game.py, GRID_SIZE = 12). -/
def GRID_SIZE : Int := 12

/-- Cell code for an empty cell. -/
def EMPTY : Nat := 0

/-- Cell code for a tree. -/
def TREE : Nat := 1

/-- Cell code for the zebra. -/
def ZEBRA : Nat := 2

/-- Cell code for the elephant. -/
def ELEPHANT : Nat := 3

/-- Cell code for the oryx. -/
def ORYX : Nat := 4

/-- The keys of the DIRECTIONS dict, in insertion order: the rotation cycle. -/
def FACING_NAMES : List String := ["North", "East", "South", "West"]

/-- The movement vector of each facing (DIRECTIONS dict). North increases the
row index in this game. The garbage value (0, 0) is never reached: every call
site passes one of the four facing names. -/
def dirDelta (facing : String) : Int × Int :=
  if facing = "North" then (1, 0)
  else if facing = "East" then (0, 1)
  else if facing = "South" then (-1, 0)
  else if facing = "West" then (0, -1)
  else (0, 0)

/-- The accepted relative move tokens (MOVE_TYPES). -/
def MOVE_TYPES : List String := ["forward", "left", "right", "backward"]

/-- Facing name at a rotation index (list(DIRECTIONS.keys())[i]); indices are
always taken mod 4, so the default is never used. -/
def facingName (i : Nat) : String :=
  FACING_NAMES.getD i "North"

/-- Tree cells laid out by _setup_grid. -/
def tree_positions : List (Int × Int) :=
  [(2, 3), (4, 8), (9, 5), (1, 10), (11, 2),
   (5, 1), (8, 9), (3, 6), (7, 11), (2, 9),
   (10, 4), (5, 3), (9, 8), (3, 4), (11, 6)]

/-- The initial grid: trees first, then the three animals overwrite their
cells (the oryx cell (2, 9) is also in the tree list; the animal wins, as the
later assignment does in _setup_grid). -/
def initGrid : Int → Int → Nat := fun r c =>
  if (r, c) = ((3 : Int), (3 : Int)) then ZEBRA
  else if (r, c) = ((9 : Int), (9 : Int)) then ELEPHANT
  else if (r, c) = ((2 : Int), (9 : Int)) then ORYX
  else if (r, c) ∈ tree_positions then TREE
  else EMPTY

/-- _is_valid_position: the coordinate lies on the 12 by 12 grid. -/
def isValidPosition (r c : Int) : Prop :=
  0 ≤ r ∧ r < GRID_SIZE ∧ 0 ≤ c ∧ c < GRID_SIZE

instance (r c : Int) : Decidable (isValidPosition r c) := by
  unfold isValidPosition; infer_instance

/-- The cell code is one of the three animals. -/
def isAnimalCell (v : Nat) : Prop :=
  v = ZEBRA ∨ v = ELEPHANT ∨ v = ORYX

instance (v : Nat) : Decidable (isAnimalCell v) := by
  unfold isAnimalCell; infer_instance

/-- The 8-neighbourhood offsets, in the loop order of the source (dr then dc,
each over -1, 0, 1, skipping (0, 0)). -/
def neighborOffsets : List (Int × Int) :=
  [(-1, -1), (-1, 0), (-1, 1), (0, -1), (0, 1), (1, -1), (1, 0), (1, 1)]

/-- _is_adjacent_to_animal: some valid 8-neighbour of (r, c) holds an animal. -/
def isAdjacentToAnimal (grid : Int → Int → Nat) (r c : Int) : Prop :=
  ∃ d ∈ neighborOffsets,
    isValidPosition (r + d.1) (c + d.2) ∧ isAnimalCell (grid (r + d.1) (c + d.2))

instance (grid : Int → Int → Nat) (r c : Int) :
    Decidable (isAdjacentToAnimal grid r c) := by
  unfold isAdjacentToAnimal; infer_instance

/-- The fields of a DroneSafariGame instance that the rules engine reads or
writes (visualization-only figure state is not part of the engine). -/
structure GameState where
  grid : Int → Int → Nat
  dronePos : Int × Int
  droneFacing : String
  zebraPhotographed : Bool
  elephantPhotographed : Bool
  oryxPhotographed : Bool
  picturesRemaining : Nat
  picturesTaken : Nat
  totalMoves : Nat
  totalTurns : Nat
  photographedLocations : Int × Int → Option Nat
  scaredAnimals : List (Int × Int)
  gameOver : Bool
  gameWon : Bool
  failureReason : Option String
  message : String
  movementTrail : List ((Int × Int) × (Int × Int))
  rotationTrail : List ((Int × Int) × String × String)

/-- The state built by __init__ (and so by reset_game). -/
def initState : GameState where
  grid := initGrid
  dronePos := (6, 6)
  droneFacing := "North"
  zebraPhotographed := false
  elephantPhotographed := false
  oryxPhotographed := false
  picturesRemaining := 5
  picturesTaken := 0
  totalMoves := 0
  totalTurns := 0
  photographedLocations := fun _ => none
  scaredAnimals := []
  gameOver := false
  gameWon := false
  failureReason := none
  message := "Game started! Navigate carefully. You can take up to 5 pictures."
  movementTrail := []
  rotationTrail := []

/-- _get_absolute_direction. Python computes (facing_index - 1) % 4 for a
left move; on the indices 0..3 that equals (facing_index + 3) % 4. The final
fallback is unreachable: move validates the token before calling here. -/
def getAbsoluteDirection (facing moveType : String) : String :=
  let facingIndex := FACING_NAMES.indexOf facing
  if moveType = "forward" then facing
  else if moveType = "backward" then facingName ((facingIndex + 2) % 4)
  else if moveType = "right" then facingName ((facingIndex + 1) % 4)
  else if moveType = "left" then facingName ((facingIndex + 3) % 4)
  else facing

/-- Point update of the grid (self.grid[r, c] = v). -/
def updateGrid (g : Int → Int → Nat) (r c : Int) (v : Nat) : Int → Int → Nat :=
  fun r' c' => if r' = r ∧ c' = c then v else g r' c'

/-- Point update of the photographed-locations dict. -/
def recordLocation (m : Int × Int → Option Nat) (p : Int × Int) (n : Nat) :
    Int × Int → Option Nat :=
  fun q => if q = p then some n else m q

/-- Adding a cell to the scared_animals set (set.add: no duplicates). -/
def addScared (l : List (Int × Int)) (p : Int × Int) : List (Int × Int) :=
  if p ∈ l then l else l ++ [p]

/-- One iteration of the scare loop in move: if the offset cell is valid and
holds an animal right now, record it as scared and clear it from the grid. -/
def scareStep (s : GameState) (nr nc : Int) (d : Int × Int) : GameState :=
  if isValidPosition (nr + d.1) (nc + d.2) ∧
      isAnimalCell (s.grid (nr + d.1) (nc + d.2)) then
    { s with scaredAnimals := addScared s.scaredAnimals (nr + d.1, nc + d.2),
             grid := updateGrid s.grid (nr + d.1) (nc + d.2) EMPTY }
  else s

/-- The whole scare loop of move, over the 8 neighbours of the candidate. -/
def scareAdjacent (s : GameState) (nr nc : Int) : GameState :=
  neighborOffsets.foldl (fun t d => scareStep t nr nc d) s

/-- The terminal notice returned by every mutating command once the game is
over. -/
def gameOverMessage : String := "Game is over! Reset to play again."

/-- The rejection message for an unrecognized move token (the Python f-string
prints the MOVE_TYPES list). -/
def invalidMoveMessage (moveType : String) : String :=
  "Invalid move_type: " ++ moveType ++ ". Use: ['forward', 'left', 'right', 'backward']"

/-- The rejection message for an unrecognized turn token. -/
def invalidTurnMessage : String :=
  "Invalid turn direction. Use 'left' or 'right'."

/-- DroneSafariGame.move (the sensors flag only appends a read-only scan to
the returned text, so it is dropped here). Returns (result message, state). -/
def move (s : GameState) (moveType : String) : String × GameState :=
  if s.gameOver then (gameOverMessage, s)
  else if moveType ∉ MOVE_TYPES then (invalidMoveMessage moveType, s)
  else
    let d := dirDelta (getAbsoluteDirection s.droneFacing moveType)
    let newRow := s.dronePos.1 + d.1
    let newCol := s.dronePos.2 + d.2
    if ¬ isValidPosition newRow newCol then
      let s' := { s with dronePos := (newRow, newCol), gameOver := true,
                         failureReason := some "boundary_crash",
                         message := "Drone crashed! Flew outside the grid boundaries." }
      (s'.message, s')
    else if s.grid newRow newCol = TREE then
      let s' := { s with dronePos := (newRow, newCol), gameOver := true,
                         failureReason := some "tree_crash",
                         message := "Drone crashed into a tree!" }
      (s'.message, s')
    else if isAnimalCell (s.grid newRow newCol) then
      let s' := { s with dronePos := (newRow, newCol), gameOver := true,
                         failureReason := some "animal_crash",
                         message := "Drone crashed into an animal!" }
      (s'.message, s')
    else if isAdjacentToAnimal s.grid newRow newCol then
      let s1 := scareAdjacent s newRow newCol
      let s' := { s1 with dronePos := (newRow, newCol), gameOver := true,
                          failureReason := some "scared_animal",
                          message := "Drone got too close to an animal and scared it away!" }
      (s'.message, s')
    else
      let s' := { s with
                  movementTrail := s.movementTrail ++ [(s.dronePos, (newRow, newCol))],
                  dronePos := (newRow, newCol),
                  totalMoves := s.totalMoves + 1,
                  message := "Moved " ++ moveType ++ " to position (" ++ toString newRow
                    ++ ", " ++ toString newCol ++ "), facing " ++ s.droneFacing }
      (s'.message, s')

/-- DroneSafariGame.turn. -/
def turn (s : GameState) (turnDirection : String) : String × GameState :=
  if s.gameOver then (gameOverMessage, s)
  else if turnDirection ∉ ["left", "right"] then (invalidTurnMessage, s)
  else
    let facingIndex := FACING_NAMES.indexOf s.droneFacing
    let newFacingIndex :=
      if turnDirection = "left" then (facingIndex + 3) % 4 else (facingIndex + 1) % 4
    let oldFacing := s.droneFacing
    let newFacing := facingName newFacingIndex
    let s' := { s with droneFacing := newFacing,
                       rotationTrail := s.rotationTrail ++ [(s.dronePos, oldFacing, newFacing)],
                       totalTurns := s.totalTurns + 1,
                       message := "Turned " ++ turnDirection ++ ", now facing " ++ newFacing }
    (s'.message, s')

/-- DroneSafariGame.take_picture. The pictures_remaining counter is a Nat:
the source decrements it only when it is positive, so it never goes below
zero. `remaining` and `taken` are the values of self.pictures_remaining and
self.pictures_taken after the unconditional decrement and increment; the
grid and the photographed flags are read from `s` because take_picture
never writes them before reading. The dead validity guard of the
out-of-bounds branch is transcribed as in the source (it never records
anything). The if/elif chain over the target cell is gathered into
`outcome` = (zebra flag, elephant flag, oryx flag, message) so that each
branch can return the final state in one record expression. -/
def takePicture (s : GameState) : String × GameState :=
  if s.gameOver then (gameOverMessage, s)
  else if s.picturesRemaining = 0 then
    ("No pictures remaining! You've used all 5 pictures.",
     { s with message := "No pictures remaining! You've used all 5 pictures.",
              gameOver := true })
  else
    let remaining := s.picturesRemaining - 1
    let taken := s.picturesTaken + 1
    let d := dirDelta s.droneFacing
    let targetRow := s.dronePos.1 + 2 * d.1
    let targetCol := s.dronePos.2 + 2 * d.2
    let blockingRow := s.dronePos.1 + d.1
    let blockingCol := s.dronePos.2 + d.2
    if ¬ isValidPosition targetRow targetCol then
      let locs :=
        if isValidPosition targetRow targetCol then
          recordLocation s.photographedLocations (targetRow, targetCol) taken
        else s.photographedLocations
      let msg := "Picture #" ++ toString taken
        ++ " wasted! No animal in range to photograph. "
        ++ toString remaining ++ " pictures remaining."
      if remaining = 0 then
        let msg2 := msg ++ " Game Over - No pictures left!"
        (msg2, { s with picturesRemaining := remaining, picturesTaken := taken,
                        photographedLocations := locs, gameOver := true, message := msg2 })
      else
        (msg, { s with picturesRemaining := remaining, picturesTaken := taken,
                       photographedLocations := locs, message := msg })
    else if isValidPosition blockingRow blockingCol ∧
        s.grid blockingRow blockingCol = TREE then
      let locs := recordLocation s.photographedLocations (blockingRow, blockingCol) taken
      let msg := "Picture #" ++ toString taken
        ++ " wasted! A tree is blocking your view. "
        ++ toString remaining ++ " pictures remaining."
      if remaining = 0 then
        let msg2 := msg ++ " Game Over - No pictures left and mission incomplete!"
        (msg2, { s with picturesRemaining := remaining, picturesTaken := taken,
                        photographedLocations := locs, gameOver := true,
                        failureReason := some "out_of_pictures", message := msg2 })
      else
        (msg, { s with picturesRemaining := remaining, picturesTaken := taken,
                       photographedLocations := locs, message := msg })
    else
      let locs :=
        if isValidPosition targetRow targetCol then
          recordLocation s.photographedLocations (targetRow, targetCol) taken
        else s.photographedLocations
      let animalValue := s.grid targetRow targetCol
      let outcome : Bool × Bool × Bool × String :=
        if animalValue = ZEBRA then
          if s.zebraPhotographed then
            (s.zebraPhotographed, s.elephantPhotographed, s.oryxPhotographed,
             "Picture #" ++ toString taken ++ " wasted! Zebra already photographed. "
               ++ toString remaining ++ " pictures remaining.")
          else
            (true, s.elephantPhotographed, s.oryxPhotographed,
             "Picture #" ++ toString taken ++ ": Successfully photographed the zebra! "
               ++ toString remaining ++ " pictures remaining.")
        else if animalValue = ELEPHANT then
          if s.elephantPhotographed then
            (s.zebraPhotographed, s.elephantPhotographed, s.oryxPhotographed,
             "Picture #" ++ toString taken ++ " wasted! Elephant already photographed. "
               ++ toString remaining ++ " pictures remaining.")
          else
            (s.zebraPhotographed, true, s.oryxPhotographed,
             "Picture #" ++ toString taken ++ ": Successfully photographed the elephant! "
               ++ toString remaining ++ " pictures remaining.")
        else if animalValue = ORYX then
          if s.oryxPhotographed then
            (s.zebraPhotographed, s.elephantPhotographed, s.oryxPhotographed,
             "Picture #" ++ toString taken ++ " wasted! Oryx already photographed. "
               ++ toString remaining ++ " pictures remaining.")
          else
            (s.zebraPhotographed, s.elephantPhotographed, true,
             "Picture #" ++ toString taken ++ ": Successfully photographed the oryx! "
               ++ toString remaining ++ " pictures remaining.")
        else if animalValue = TREE then
          (s.zebraPhotographed, s.elephantPhotographed, s.oryxPhotographed,
           "Picture #" ++ toString taken ++ " wasted! You photographed a tree. "
             ++ toString remaining ++ " pictures remaining.")
        else
          (s.zebraPhotographed, s.elephantPhotographed, s.oryxPhotographed,
           "Picture #" ++ toString taken ++ " wasted! No animal in range to photograph. "
             ++ toString remaining ++ " pictures remaining.")
      if outcome.1 && outcome.2.1 && outcome.2.2.1 then
        let msg2 := outcome.2.2.2
          ++ " Congratulations! You've photographed all animals and won the game!"
        (msg2, { s with picturesRemaining := remaining, picturesTaken := taken,
                        photographedLocations := locs,
                        zebraPhotographed := outcome.1,
                        elephantPhotographed := outcome.2.1,
                        oryxPhotographed := outcome.2.2.1,
                        gameWon := true, gameOver := true, message := msg2 })
      else if remaining = 0 then
        let msg2 := outcome.2.2.2 ++ " Game Over - No pictures left and mission incomplete!"
        (msg2, { s with picturesRemaining := remaining, picturesTaken := taken,
                        photographedLocations := locs,
                        zebraPhotographed := outcome.1,
                        elephantPhotographed := outcome.2.1,
                        oryxPhotographed := outcome.2.2.1,
                        gameOver := true, failureReason := some "out_of_pictures",
                        message := msg2 })
      else
        (outcome.2.2.2, { s with picturesRemaining := remaining, picturesTaken := taken,
                                 photographedLocations := locs,
                                 zebraPhotographed := outcome.1,
                                 elephantPhotographed := outcome.2.1,
                                 oryxPhotographed := outcome.2.2.1,
                                 message := outcome.2.2.2 })

/-- The dict returned by get_status, field for field. -/
structure GameStatus where
  position : Int × Int
  facing : String
  animalsPhotographed : Bool × Bool × Bool
  picturesRemaining : Nat
  picturesTaken : Nat
  totalMoves : Nat
  totalTurns : Nat
  photographedLocations : Int × Int → Option Nat
  gameOver : Bool
  gameWon : Bool
  message : String

/-- DroneSafariGame.get_status. -/
def getStatus (s : GameState) : GameStatus where
  position := s.dronePos
  facing := s.droneFacing
  animalsPhotographed := (s.zebraPhotographed, s.elephantPhotographed, s.oryxPhotographed)
  picturesRemaining := s.picturesRemaining
  picturesTaken := s.picturesTaken
  totalMoves := s.totalMoves
  totalTurns := s.totalTurns
  photographedLocations := s.photographedLocations
  gameOver := s.gameOver
  gameWon := s.gameWon
  message := s.message

/-- The commands a driver can issue against the engine (reset_game rebuilds
the __init__ state and returns a confirmation string). -/
inductive Cmd where
  | move (moveType : String)
  | turn (turnDirection : String)
  | takePicture
  | reset
deriving DecidableEq

/-- The state after one command (result text discarded). -/
def step (s : GameState) : Cmd → GameState
  | Cmd.move mt => (move s mt).2
  | Cmd.turn td => (turn s td).2
  | Cmd.takePicture => (takePicture s).2
  | Cmd.reset => initState

/-- The state after a command sequence. -/
def runState (s : GameState) : List Cmd → GameState
  | [] => s
  | c :: cs => runState (step s c) cs

/-- The states a driver can reach from a freshly constructed game. -/
inductive Reachable : GameState → Prop where
  | init : Reachable initState
  | step : ∀ {s : GameState} (c : Cmd), Reachable s → Reachable (step s c)

/-- The precedence list of move, as the specification words it: first match
wins among boundary, tree, animal collision, scare; none means success. -/
def moveClassify (g : Int → Int → Nat) (r c : Int) : Option String :=
  if ¬ isValidPosition r c then some "boundary_crash"
  else if g r c = TREE then some "tree_crash"
  else if isAnimalCell (g r c) then some "animal_crash"
  else if isAdjacentToAnimal g r c then some "scared_animal"
  else none

/-- The candidate cell of a move: current position plus the unit vector of
the resolved absolute direction (new_row, new_col in the source). -/
def moveCandidate (s : GameState) (moveType : String) : Int × Int :=
  (s.dronePos.1 + (dirDelta (getAbsoluteDirection s.droneFacing moveType)).1,
   s.dronePos.2 + (dirDelta (getAbsoluteDirection s.droneFacing moveType)).2)

/-- The inductive invariant of reachable states: the facing is one of the
four names, the picture budget is conserved, a spent budget forces a
terminal state, and the position can leave the grid only at a boundary
crash. -/
def Inv (s : GameState) : Prop :=
  s.droneFacing ∈ FACING_NAMES ∧
  s.picturesRemaining + s.picturesTaken = 5 ∧
  (s.picturesRemaining = 0 → s.gameOver = true) ∧
  (s.gameOver = false → isValidPosition s.dronePos.1 s.dronePos.2) ∧
  (¬ isValidPosition s.dronePos.1 s.dronePos.2 →
    s.gameOver = true ∧ s.failureReason = some "boundary_crash")

/-- A concrete terminal state (used to witness the frame theorems). -/
def terminalState : GameState := { initState with gameOver := true }

/-- A concrete non-terminal state whose backward move lands on (4, 4),
8-adjacent to the zebra at (3, 3) (used to witness the scare theorem). -/
def scareDemoState : GameState := { initState with dronePos := (5, 4) }

/-- The run that exposes the missing failure reason: four forward moves to
(10, 6) facing North, then five pictures aimed at the out-of-bounds cell
(12, 6); the fifth spends the last picture. -/
def outOfPicturesRun : GameState := runState initState
  [Cmd.move "forward", Cmd.move "forward", Cmd.move "forward", Cmd.move "forward",
   Cmd.takePicture, Cmd.takePicture, Cmd.takePicture, Cmd.takePicture, Cmd.takePicture]

/-- The command list that drives the fresh game to (7, 9) facing North: a
tree sits at (8, 9), one cell ahead, and the elephant at (9, 9), two ahead
(used to witness the tree-blocked-shot theorem). -/
def treeBlockedCmds : List Cmd :=
  [Cmd.move "right", Cmd.move "right", Cmd.move "right", Cmd.move "forward"]

/-- A state that differs from the initial one exactly in the scared-cell set
and the failure reason (used to refute the claim that get_status exposes
them). -/
def hiddenFieldsState : GameState :=
  { initState with scaredAnimals := [(5, 5)], failureReason := some "tree_crash" }

/-! Frame lemmas: a terminal state absorbs every command but reset. -/

theorem move_of_gameOver (s : GameState) (moveType : String) (h : s.gameOver = true) :
    move s moveType = (gameOverMessage, s) := by
  unfold move; simp [h]

theorem turn_of_gameOver (s : GameState) (turnDirection : String) (h : s.gameOver = true) :
    turn s turnDirection = (gameOverMessage, s) := by
  unfold turn; simp [h]

theorem takePicture_of_gameOver (s : GameState) (h : s.gameOver = true) :
    takePicture s = (gameOverMessage, s) := by
  unfold takePicture; simp [h]

theorem step_of_gameOver (s : GameState) (c : Cmd) (h : s.gameOver = true)
    (hc : c ≠ Cmd.reset) : step s c = s := by
  cases c with
  | move mt => simp [step, move_of_gameOver _ _ h]
  | turn td => simp [step, turn_of_gameOver _ _ h]
  | takePicture => simp [step, takePicture_of_gameOver _ h]
  | reset => exact absurd rfl hc

theorem runState_of_gameOver (s : GameState) (cs : List Cmd) (h : s.gameOver = true)
    (hcs : Cmd.reset ∉ cs) : runState s cs = s := by
  induction cs with
  | nil => rfl
  | cons c cs ih =>
    have hc : c ≠ Cmd.reset := fun e => hcs (e ▸ List.mem_cons_self c cs)
    rw [runState, step_of_gameOver s c h hc]
    exact ih (fun hm => hcs (List.mem_cons_of_mem _ hm))

/-- C1: once game_over is true, every move, turn or take_picture call
returns only the already-over notice and leaves the whole state (position,
facing, picture counters, photographed maps, scared set, everything)
unchanged, and any reset-free command sequence leaves the state fixed. -/
theorem terminal_commands_inert (s : GameState) (h : s.gameOver = true)
    (moveType turnDirection : String) (cs : List Cmd) (hcs : Cmd.reset ∉ cs) :
    move s moveType = (gameOverMessage, s) ∧
    turn s turnDirection = (gameOverMessage, s) ∧
    takePicture s = (gameOverMessage, s) ∧
    runState s cs = s :=
  ⟨move_of_gameOver s moveType h, turn_of_gameOver s turnDirection h,
   takePicture_of_gameOver s h, runState_of_gameOver s cs h hcs⟩

theorem terminal_commands_inert_witness :
    terminalState.gameOver = true ∧
    Cmd.reset ∉ [Cmd.move "forward", Cmd.takePicture] ∧
    (move terminalState "forward" = (gameOverMessage, terminalState) ∧
     turn terminalState "left" = (gameOverMessage, terminalState) ∧
     takePicture terminalState = (gameOverMessage, terminalState) ∧
     runState terminalState [Cmd.move "forward", Cmd.takePicture] = terminalState) :=
  ⟨rfl, by decide,
   terminal_commands_inert terminalState rfl "forward" "left"
     [Cmd.move "forward", Cmd.takePicture] (by decide)⟩

/-- C9: an unrecognized direction token makes move and turn return a
rejection message and leave every field of the state unchanged (in a
terminal state the guard answers first, still without mutating anything). -/
theorem invalid_token_no_mutation (s : GameState) (moveToken turnToken : String)
    (hm : moveToken ∉ MOVE_TYPES) (ht : turnToken ∉ ["left", "right"]) :
    (move s moveToken).2 = s ∧ (turn s turnToken).2 = s ∧
    (s.gameOver = false →
      (move s moveToken).1 = invalidMoveMessage moveToken ∧
      (turn s turnToken).1 = invalidTurnMessage) := by
  unfold move turn
  by_cases h : s.gameOver = true
  · simp [h]
  · have h' : s.gameOver = false := by simpa using h
    simp [h', hm, ht]

theorem invalid_token_no_mutation_witness :
    "up" ∉ MOVE_TYPES ∧ "north" ∉ ["left", "right"] ∧
    ((move initState "up").2 = initState ∧ (turn initState "north").2 = initState ∧
     (initState.gameOver = false →
       (move initState "up").1 = invalidMoveMessage "up" ∧
       (turn initState "north").1 = invalidTurnMessage)) :=
  ⟨by decide, by decide,
   invalid_token_no_mutation initState "up" "north" (by decide) (by decide)⟩

/-- C2: for a non-terminal state and a valid token, move lands the drone on
the candidate cell in every case (including the out-of-range cell of a
boundary crash), reports exactly the first matching failure reason in the
precedence order boundary, tree, animal, scare, and sets game_over exactly
when a failure fired. -/
theorem move_precedence (s : GameState) (moveType : String)
    (hov : s.gameOver = false) (hmt : moveType ∈ MOVE_TYPES)
    (hfac : s.droneFacing ∈ FACING_NAMES) :
    (move s moveType).2.dronePos =
      (s.dronePos.1 + (dirDelta (getAbsoluteDirection s.droneFacing moveType)).1,
       s.dronePos.2 + (dirDelta (getAbsoluteDirection s.droneFacing moveType)).2) ∧
    (move s moveType).2.failureReason =
      (match moveClassify s.grid
          (s.dronePos.1 + (dirDelta (getAbsoluteDirection s.droneFacing moveType)).1)
          (s.dronePos.2 + (dirDelta (getAbsoluteDirection s.droneFacing moveType)).2) with
       | some reason => some reason
       | none => s.failureReason) ∧
    (move s moveType).2.gameOver =
      (moveClassify s.grid
        (s.dronePos.1 + (dirDelta (getAbsoluteDirection s.droneFacing moveType)).1)
        (s.dronePos.2 + (dirDelta (getAbsoluteDirection s.droneFacing moveType)).2)).isSome := by
  unfold move moveClassify
  simp only [hov, hmt, Bool.false_eq_true, if_false, not_true, not_false_iff, if_true,
    List.mem_cons, ite_not]
  split_ifs <;> simp_all

theorem move_precedence_witness :
    initState.gameOver = false ∧ "forward" ∈ MOVE_TYPES ∧
    initState.droneFacing ∈ FACING_NAMES ∧
    ((move initState "forward").2.dronePos =
      (initState.dronePos.1 + (dirDelta (getAbsoluteDirection initState.droneFacing "forward")).1,
       initState.dronePos.2 + (dirDelta (getAbsoluteDirection initState.droneFacing "forward")).2) ∧
    (move initState "forward").2.failureReason =
      (match moveClassify initState.grid
          (initState.dronePos.1 + (dirDelta (getAbsoluteDirection initState.droneFacing "forward")).1)
          (initState.dronePos.2 + (dirDelta (getAbsoluteDirection initState.droneFacing "forward")).2) with
       | some reason => some reason
       | none => initState.failureReason) ∧
    (move initState "forward").2.gameOver =
      (moveClassify initState.grid
        (initState.dronePos.1 + (dirDelta (getAbsoluteDirection initState.droneFacing "forward")).1)
        (initState.dronePos.2 + (dirDelta (getAbsoluteDirection initState.droneFacing "forward")).2)).isSome) :=
  ⟨rfl, by decide, by decide, move_precedence initState "forward" rfl (by decide) (by decide)⟩

/-! The scare loop touches only the grid and the scared set. -/

theorem scareStep_proj (t : GameState) (nr nc : Int) (d : Int × Int) :
    (scareStep t nr nc d).dronePos = t.dronePos ∧
    (scareStep t nr nc d).droneFacing = t.droneFacing ∧
    (scareStep t nr nc d).picturesRemaining = t.picturesRemaining ∧
    (scareStep t nr nc d).picturesTaken = t.picturesTaken ∧
    (scareStep t nr nc d).gameOver = t.gameOver ∧
    (scareStep t nr nc d).failureReason = t.failureReason := by
  unfold scareStep; split_ifs <;> exact ⟨rfl, rfl, rfl, rfl, rfl, rfl⟩

theorem scareFold_proj (l : List (Int × Int)) (t : GameState) (nr nc : Int) :
    ((l.foldl (fun u d => scareStep u nr nc d) t)).dronePos = t.dronePos ∧
    ((l.foldl (fun u d => scareStep u nr nc d) t)).droneFacing = t.droneFacing ∧
    ((l.foldl (fun u d => scareStep u nr nc d) t)).picturesRemaining = t.picturesRemaining ∧
    ((l.foldl (fun u d => scareStep u nr nc d) t)).picturesTaken = t.picturesTaken := by
  induction l generalizing t with
  | nil => exact ⟨rfl, rfl, rfl, rfl⟩
  | cons d rest ih =>
    obtain ⟨h1, h2, h3, h4, _, _⟩ := scareStep_proj t nr nc d
    obtain ⟨g1, g2, g3, g4⟩ := ih (scareStep t nr nc d)
    exact ⟨g1.trans h1, g2.trans h2, g3.trans h3, g4.trans h4⟩

theorem scareAdjacent_proj (t : GameState) (nr nc : Int) :
    (scareAdjacent t nr nc).dronePos = t.dronePos ∧
    (scareAdjacent t nr nc).droneFacing = t.droneFacing ∧
    (scareAdjacent t nr nc).picturesRemaining = t.picturesRemaining ∧
    (scareAdjacent t nr nc).picturesTaken = t.picturesTaken :=
  scareFold_proj neighborOffsets t nr nc

/-! Preservation of the reachability invariant. -/

theorem facingName_mem (n : Nat) : facingName (n % 4) ∈ FACING_NAMES := by
  have h : n % 4 < 4 := Nat.mod_lt _ (by norm_num)
  interval_cases h : n % 4 <;> decide

theorem inv_init : Inv initState := by
  unfold Inv; refine ⟨by decide, by decide, by decide, by decide, by decide⟩

theorem inv_move (s : GameState) (moveType : String) (h : Inv s) :
    Inv (move s moveType).2 := by
  obtain ⟨hfac, hsum, hzero, hval, hoob⟩ := h
  by_cases hov : s.gameOver = true
  · rw [move_of_gameOver s moveType hov]
    exact ⟨hfac, hsum, hzero, hval, hoob⟩
  have hov' : s.gameOver = false := by simpa using hov
  unfold move Inv
  by_cases hmt : moveType ∈ MOVE_TYPES
  · simp only [hov', Bool.false_eq_true, if_false, hmt, not_true, ite_not]
    obtain ⟨p1, p2, p3, p4⟩ := scareAdjacent_proj s
      (s.dronePos.1 + (dirDelta (getAbsoluteDirection s.droneFacing moveType)).1)
      (s.dronePos.2 + (dirDelta (getAbsoluteDirection s.droneFacing moveType)).2)
    split_ifs with h1 h2 h3 h4 <;>
      refine ⟨?_, ?_, ?_, ?_, ?_⟩ <;>
      simp_all
  · simp only [hov', Bool.false_eq_true, if_false, hmt, not_false_iff, if_true]
    refine ⟨?_, ?_, ?_, ?_, ?_⟩ <;> simp_all

theorem inv_turn (s : GameState) (turnDirection : String) (h : Inv s) :
    Inv (turn s turnDirection).2 := by
  obtain ⟨hfac, hsum, hzero, hval, hoob⟩ := h
  by_cases hov : s.gameOver = true
  · rw [turn_of_gameOver s turnDirection hov]
    exact ⟨hfac, hsum, hzero, hval, hoob⟩
  have hov' : s.gameOver = false := by simpa using hov
  unfold turn Inv
  by_cases htd : turnDirection ∈ ["left", "right"]
  · simp only [hov', Bool.false_eq_true, if_false, htd, not_true, ite_not, if_true]
    refine ⟨?_, ?_, ?_, ?_, ?_⟩
    · split_ifs <;> exact facingName_mem _
    all_goals simp_all
  · simp only [hov', Bool.false_eq_true, if_false, htd, not_false_iff, if_true]
    refine ⟨?_, ?_, ?_, ?_, ?_⟩ <;> simp_all

theorem takePicture_main_proj (s : GameState) (hov : s.gameOver = false)
    (hrem : ¬ s.picturesRemaining = 0) (r : String × GameState)
    (he : takePicture s = r) :
    r.2.picturesRemaining = s.picturesRemaining - 1 ∧
    r.2.picturesTaken = s.picturesTaken + 1 ∧
    r.2.dronePos = s.dronePos ∧
    r.2.droneFacing = s.droneFacing ∧
    (r.2.picturesRemaining = 0 → r.2.gameOver = true) := by
  have hov' : ¬ s.gameOver = true := by simp [hov]
  simp only [takePicture] at he
  rw [if_neg hov', if_neg hrem] at he
  subst he
  refine ⟨?_, ?_, ?_, ?_, ?_⟩ <;>
    simp only [apply_ite Prod.snd, apply_ite GameState.picturesRemaining,
      apply_ite GameState.picturesTaken, apply_ite GameState.dronePos,
      apply_ite GameState.droneFacing, apply_ite GameState.gameOver, ite_self]
  intro h0
  simp [h0]

theorem inv_takePicture (s : GameState) (h : Inv s) : Inv (takePicture s).2 := by
  obtain ⟨hfac, hsum, hzero, hval, hoob⟩ := h
  by_cases hov : s.gameOver = true
  · rw [takePicture_of_gameOver s hov]
    exact ⟨hfac, hsum, hzero, hval, hoob⟩
  have hov' : s.gameOver = false := by simpa using hov
  by_cases hrem : s.picturesRemaining = 0
  · exact absurd (hzero hrem) hov
  obtain ⟨e1, e2, e3, e4, e5⟩ := takePicture_main_proj s hov' hrem (takePicture s) rfl
  refine ⟨?_, ?_, ?_, ?_, ?_⟩
  · rw [e4]; exact hfac
  · rw [e1, e2]; omega
  · exact e5
  · intro _; rw [e3]; exact hval hov'
  · intro hc; rw [e3] at hc; exact absurd (hval hov') hc

theorem inv_step (s : GameState) (c : Cmd) (h : Inv s) : Inv (step s c) := by
  cases c with
  | move mt => exact inv_move s mt h
  | turn td => exact inv_turn s td h
  | takePicture => exact inv_takePicture s h
  | reset => exact inv_init

theorem reachable_inv (s : GameState) (h : Reachable s) : Inv s := by
  induction h with
  | init => exact inv_init
  | step c _ ih => exact inv_step _ c ih

theorem reachable_runState (s : GameState) (h : Reachable s) (cs : List Cmd) :
    Reachable (runState s cs) := by
  induction cs generalizing s with
  | nil => exact h
  | cons c cs ih => exact ih _ (Reachable.step c h)

/-- C6: in every state reachable from a freshly constructed or reset game,
pictures_remaining plus pictures_taken equals the budget of 5. -/
theorem picture_budget_conserved (s : GameState) (h : Reachable s) :
    s.picturesRemaining + s.picturesTaken = 5 :=
  (reachable_inv s h).2.1

theorem picture_budget_conserved_witness :
    Reachable initState ∧ initState.picturesRemaining + initState.picturesTaken = 5 :=
  ⟨Reachable.init, picture_budget_conserved initState Reachable.init⟩

/-- C10: in every reachable state that is not terminal the drone position is
on the 12 by 12 grid, and an out-of-bounds position is held only in a
terminal state whose failure reason is boundary_crash. -/
theorem position_in_bounds (s : GameState) (h : Reachable s) :
    (s.gameOver = false → isValidPosition s.dronePos.1 s.dronePos.2) ∧
    (¬ isValidPosition s.dronePos.1 s.dronePos.2 →
      s.gameOver = true ∧ s.failureReason = some "boundary_crash") :=
  ⟨(reachable_inv s h).2.2.2.1, (reachable_inv s h).2.2.2.2⟩

theorem position_in_bounds_witness :
    Reachable initState ∧
    ((initState.gameOver = false → isValidPosition initState.dronePos.1 initState.dronePos.2) ∧
     (¬ isValidPosition initState.dronePos.1 initState.dronePos.2 →
       initState.gameOver = true ∧ initState.failureReason = some "boundary_crash")) :=
  ⟨Reachable.init, position_in_bounds initState Reachable.init⟩

/-- C3: in every reachable non-terminal state, take_picture lowers
pictures_remaining by exactly one and raises pictures_taken by exactly one,
whatever the outcome of the shot is. -/
theorem shot_always_consumed (s : GameState) (h : Reachable s)
    (hov : s.gameOver = false) :
    (takePicture s).2.picturesRemaining + 1 = s.picturesRemaining ∧
    (takePicture s).2.picturesTaken = s.picturesTaken + 1 := by
  have hinv := reachable_inv s h
  have hrem : ¬ s.picturesRemaining = 0 := fun hr => by
    rw [hinv.2.2.1 hr] at hov; exact Bool.true_eq_false.mp hov
  obtain ⟨e1, e2, _, _, _⟩ := takePicture_main_proj s hov hrem (takePicture s) rfl
  refine ⟨?_, e2⟩
  rw [e1]
  have : s.picturesRemaining ≠ 0 := hrem
  omega

theorem shot_always_consumed_witness :
    Reachable initState ∧ initState.gameOver = false ∧
    ((takePicture initState).2.picturesRemaining + 1 = initState.picturesRemaining ∧
     (takePicture initState).2.picturesTaken = initState.picturesTaken + 1) :=
  ⟨Reachable.init, rfl, shot_always_consumed initState Reachable.init rfl⟩

/-- C4 (evidence of the code bug): the take_picture call that spends the
last picture while aiming at an out-of-bounds target cell makes the game
terminal, not won, with no pictures left, yet leaves failure_reason unset
(none) instead of out_of_pictures. -/
theorem out_of_pictures_reason_missing :
    outOfPicturesRun.gameOver = true ∧
    outOfPicturesRun.gameWon = false ∧
    outOfPicturesRun.picturesRemaining = 0 ∧
    outOfPicturesRun.failureReason = none := by
  refine ⟨?_, ?_, ?_, ?_⟩ <;> decide

/-! The scare loop: every animal adjacent to the candidate cell is cleared
from the grid and recorded as scared, and neither effect is ever undone
within the loop. -/

theorem mem_addScared (l : List (Int × Int)) (p x : Int × Int) (h : p ∈ l) :
    p ∈ addScared l x := by
  unfold addScared
  split_ifs
  · exact h
  · exact List.mem_append_left _ h

theorem mem_addScared_self (l : List (Int × Int)) (x : Int × Int) :
    x ∈ addScared l x := by
  unfold addScared
  split_ifs with h
  · exact h
  · exact List.mem_append_right _ (List.mem_singleton_self x)

theorem updateGrid_self (g : Int → Int → Nat) (r c : Int) (v : Nat) :
    updateGrid g r c v r c = v := by
  simp [updateGrid]

theorem scareStep_grid_other (t : GameState) (nr nc : Int) (d : Int × Int) (p q : Int)
    (hne : ¬ (p = nr + d.1 ∧ q = nc + d.2)) :
    (scareStep t nr nc d).grid p q = t.grid p q := by
  unfold scareStep
  split_ifs with hc
  · simp only [updateGrid]
    rw [if_neg hne]
  · rfl

theorem scareStep_scared_mono (t : GameState) (nr nc : Int) (d : Int × Int)
    (p : Int × Int) (h : p ∈ t.scaredAnimals) :
    p ∈ (scareStep t nr nc d).scaredAnimals := by
  unfold scareStep
  split_ifs with hc
  · exact mem_addScared _ _ _ h
  · exact h

theorem scareStep_grid_empty_mono (t : GameState) (nr nc : Int) (d : Int × Int)
    (p q : Int) (h : t.grid p q = EMPTY) :
    (scareStep t nr nc d).grid p q = EMPTY := by
  unfold scareStep
  split_ifs with hc
  · simp only [updateGrid]
    split_ifs
    · rfl
    · exact h
  · exact h

theorem scareFold_keeps (l : List (Int × Int)) (t : GameState) (nr nc : Int)
    (p q : Int) (hg : t.grid p q = EMPTY) (hm : (p, q) ∈ t.scaredAnimals) :
    (l.foldl (fun u d => scareStep u nr nc d) t).grid p q = EMPTY ∧
    (p, q) ∈ (l.foldl (fun u d => scareStep u nr nc d) t).scaredAnimals := by
  induction l generalizing t with
  | nil => exact ⟨hg, hm⟩
  | cons d rest ih =>
    rw [List.foldl_cons]
    exact ih _ (scareStep_grid_empty_mono t nr nc d p q hg)
      (scareStep_scared_mono t nr nc d _ hm)

theorem scareFold_scares (l : List (Int × Int)) (t : GameState) (nr nc : Int)
    (o : Int × Int) (ho : o ∈ l)
    (hv : isValidPosition (nr + o.1) (nc + o.2))
    (ha : isAnimalCell (t.grid (nr + o.1) (nc + o.2))) :
    (l.foldl (fun u d => scareStep u nr nc d) t).grid (nr + o.1) (nc + o.2) = EMPTY ∧
    (nr + o.1, nc + o.2) ∈ (l.foldl (fun u d => scareStep u nr nc d) t).scaredAnimals := by
  induction l generalizing t with
  | nil => cases ho
  | cons d rest ih =>
    rw [List.foldl_cons]
    by_cases hdo : d = o
    · subst hdo
      have hstep : (scareStep t nr nc d).grid (nr + d.1) (nc + d.2) = EMPTY := by
        unfold scareStep
        rw [if_pos ⟨hv, ha⟩]
        exact updateGrid_self _ _ _ _
      have hmem : (nr + d.1, nc + d.2) ∈ (scareStep t nr nc d).scaredAnimals := by
        unfold scareStep
        rw [if_pos ⟨hv, ha⟩]
        exact mem_addScared_self _ _
      exact scareFold_keeps rest _ nr nc _ _ hstep hmem
    · rcases List.mem_cons.mp ho with he | hrest
      · exact absurd he.symm hdo
      · have hgrid : (scareStep t nr nc d).grid (nr + o.1) (nc + o.2)
            = t.grid (nr + o.1) (nc + o.2) := by
          apply scareStep_grid_other
          rintro ⟨h1, h2⟩
          exact hdo (Prod.ext (by omega) (by omega))
        exact ih _ hrest (by rw [hgrid]; exact ha)

/-- C5: a move onto an in-bounds, non-tree, non-animal candidate cell that is
8-adjacent to a remaining animal clears every such adjacent animal from the
grid and records its cell in the scared set, puts the drone on the candidate
cell, ends the game with failure_reason scared_animal, and freezes the state
against every later reset-free command sequence (so a scared animal can never
again be photographed or collided with before reset). -/
theorem scare_removes_targets (s : GameState) (moveType : String)
    (hov : s.gameOver = false) (hmt : moveType ∈ MOVE_TYPES)
    (hval : isValidPosition (moveCandidate s moveType).1 (moveCandidate s moveType).2)
    (htree : ¬ s.grid (moveCandidate s moveType).1 (moveCandidate s moveType).2 = TREE)
    (hanim : ¬ isAnimalCell (s.grid (moveCandidate s moveType).1 (moveCandidate s moveType).2))
    (o : Int × Int) (ho : o ∈ neighborOffsets)
    (hvo : isValidPosition ((moveCandidate s moveType).1 + o.1)
             ((moveCandidate s moveType).2 + o.2))
    (ha : isAnimalCell (s.grid ((moveCandidate s moveType).1 + o.1)
             ((moveCandidate s moveType).2 + o.2)))
    (cs : List Cmd) (hcs : Cmd.reset ∉ cs) :
    (move s moveType).2.grid ((moveCandidate s moveType).1 + o.1)
      ((moveCandidate s moveType).2 + o.2) = EMPTY ∧
    ((moveCandidate s moveType).1 + o.1, (moveCandidate s moveType).2 + o.2)
      ∈ (move s moveType).2.scaredAnimals ∧
    (move s moveType).2.dronePos = moveCandidate s moveType ∧
    (move s moveType).2.gameOver = true ∧
    (move s moveType).2.failureReason = some "scared_animal" ∧
    runState (move s moveType).2 cs = (move s moveType).2 := by
  simp only [moveCandidate] at hval htree hanim hvo ha ⊢
  have hov' : ¬ s.gameOver = true := by simp [hov]
  have hadj : isAdjacentToAnimal s.grid
      (s.dronePos.1 + (dirDelta (getAbsoluteDirection s.droneFacing moveType)).1)
      (s.dronePos.2 + (dirDelta (getAbsoluteDirection s.droneFacing moveType)).2) :=
    ⟨o, ho, hvo, ha⟩
  rcases hmove : move s moveType with ⟨msg, t⟩
  simp only [move] at hmove
  rw [if_neg hov', if_neg (not_not_intro hmt), if_neg (not_not_intro hval),
    if_neg htree, if_neg hanim, if_pos hadj] at hmove
  rw [Prod.mk.injEq] at hmove
  obtain ⟨hmsg, ht⟩ := hmove
  subst ht
  obtain ⟨hgrid, hmem⟩ := scareFold_scares neighborOffsets s
    (s.dronePos.1 + (dirDelta (getAbsoluteDirection s.droneFacing moveType)).1)
    (s.dronePos.2 + (dirDelta (getAbsoluteDirection s.droneFacing moveType)).2)
    o ho hvo ha
  exact ⟨hgrid, hmem, rfl, rfl, rfl, runState_of_gameOver _ cs rfl hcs⟩

theorem scare_removes_targets_witness :
    scareDemoState.gameOver = false ∧ "backward" ∈ MOVE_TYPES ∧
    isValidPosition (moveCandidate scareDemoState "backward").1
      (moveCandidate scareDemoState "backward").2 ∧
    ¬ scareDemoState.grid (moveCandidate scareDemoState "backward").1
      (moveCandidate scareDemoState "backward").2 = TREE ∧
    ¬ isAnimalCell (scareDemoState.grid (moveCandidate scareDemoState "backward").1
      (moveCandidate scareDemoState "backward").2) ∧
    ((-1, -1) : Int × Int) ∈ neighborOffsets ∧
    isValidPosition ((moveCandidate scareDemoState "backward").1 + (-1 : Int))
      ((moveCandidate scareDemoState "backward").2 + (-1 : Int)) ∧
    isAnimalCell (scareDemoState.grid
      ((moveCandidate scareDemoState "backward").1 + (-1 : Int))
      ((moveCandidate scareDemoState "backward").2 + (-1 : Int))) ∧
    Cmd.reset ∉ [Cmd.takePicture] ∧
    ((move scareDemoState "backward").2.grid
        ((moveCandidate scareDemoState "backward").1 + (-1, -1).1)
        ((moveCandidate scareDemoState "backward").2 + (-1, -1).2) = EMPTY ∧
     ((moveCandidate scareDemoState "backward").1 + (-1, -1).1,
       (moveCandidate scareDemoState "backward").2 + (-1, -1).2)
       ∈ (move scareDemoState "backward").2.scaredAnimals ∧
     (move scareDemoState "backward").2.dronePos = moveCandidate scareDemoState "backward" ∧
     (move scareDemoState "backward").2.gameOver = true ∧
     (move scareDemoState "backward").2.failureReason = some "scared_animal" ∧
     runState (move scareDemoState "backward").2 [Cmd.takePicture]
       = (move scareDemoState "backward").2) :=
  ⟨rfl, by decide, by decide, by decide, by decide, by decide, by decide, by decide, by decide,
   scare_removes_targets scareDemoState "backward" rfl (by decide) (by decide) (by decide)
     (by decide) (-1, -1) (by decide) (by decide) (by decide) [Cmd.takePicture] (by decide)⟩

/-- C7: in a reachable non-terminal state whose target cell (two ahead) is
in bounds and whose blocking cell (one ahead) holds a tree, take_picture
consumes the shot, marks no animal photographed, attributes the
photographed-location record to the blocking tree cell (leaving the target
cell record untouched), and reports the tree-blocked message. -/
theorem tree_blocked_shot (s : GameState) (hr : Reachable s) (hov : s.gameOver = false)
    (ht : isValidPosition (s.dronePos.1 + 2 * (dirDelta s.droneFacing).1)
            (s.dronePos.2 + 2 * (dirDelta s.droneFacing).2))
    (hbv : isValidPosition (s.dronePos.1 + (dirDelta s.droneFacing).1)
            (s.dronePos.2 + (dirDelta s.droneFacing).2))
    (hb : s.grid (s.dronePos.1 + (dirDelta s.droneFacing).1)
            (s.dronePos.2 + (dirDelta s.droneFacing).2) = TREE) :
    (takePicture s).2.picturesRemaining + 1 = s.picturesRemaining ∧
    (takePicture s).2.zebraPhotographed = s.zebraPhotographed ∧
    (takePicture s).2.elephantPhotographed = s.elephantPhotographed ∧
    (takePicture s).2.oryxPhotographed = s.oryxPhotographed ∧
    (takePicture s).2.photographedLocations
      (s.dronePos.1 + (dirDelta s.droneFacing).1, s.dronePos.2 + (dirDelta s.droneFacing).2)
      = some (s.picturesTaken + 1) ∧
    (takePicture s).2.photographedLocations
      (s.dronePos.1 + 2 * (dirDelta s.droneFacing).1, s.dronePos.2 + 2 * (dirDelta s.droneFacing).2)
      = s.photographedLocations
          (s.dronePos.1 + 2 * (dirDelta s.droneFacing).1,
           s.dronePos.2 + 2 * (dirDelta s.droneFacing).2) ∧
    (takePicture s).1 =
      (if s.picturesRemaining - 1 = 0 then
        "Picture #" ++ toString (s.picturesTaken + 1) ++ " wasted! A tree is blocking your view. "
          ++ toString (s.picturesRemaining - 1) ++ " pictures remaining."
          ++ " Game Over - No pictures left and mission incomplete!"
      else
        "Picture #" ++ toString (s.picturesTaken + 1) ++ " wasted! A tree is blocking your view. "
          ++ toString (s.picturesRemaining - 1) ++ " pictures remaining.") := by
  have hinv := reachable_inv s hr
  have hrem : ¬ s.picturesRemaining = 0 := fun h0 => by
    rw [hinv.2.2.1 h0] at hov; exact Bool.true_eq_false.mp hov
  have hrem' : s.picturesRemaining ≠ 0 := hrem
  have hov' : ¬ s.gameOver = true := by simp [hov]
  have hd : dirDelta s.droneFacing = ((1 : Int), (0 : Int)) ∨
      dirDelta s.droneFacing = ((0 : Int), (1 : Int)) ∨
      dirDelta s.droneFacing = ((-1 : Int), (0 : Int)) ∨
      dirDelta s.droneFacing = ((0 : Int), (-1 : Int)) := by
    have hfac := hinv.1
    simp only [FACING_NAMES, List.mem_cons, List.not_mem_nil, or_false] at hfac
    rcases hfac with h | h | h | h <;> simp [h, dirDelta]
  have hneq : ¬ ((s.dronePos.1 + 2 * (dirDelta s.droneFacing).1,
      s.dronePos.2 + 2 * (dirDelta s.droneFacing).2)
      = ((s.dronePos.1 + (dirDelta s.droneFacing).1,
          s.dronePos.2 + (dirDelta s.droneFacing).2) : Int × Int)) := by
    rcases hd with h | h | h | h <;> rw [h] <;> simp [Prod.ext_iff] <;> omega
  rcases htp : takePicture s with ⟨msg, t⟩
  simp only [takePicture] at htp
  rw [if_neg hov', if_neg hrem, if_neg (not_not_intro ht), if_pos ⟨hbv, hb⟩] at htp
  by_cases hz : s.picturesRemaining - 1 = 0
  · rw [if_pos hz] at htp
    rw [Prod.mk.injEq] at htp
    obtain ⟨hmsg, hts⟩ := htp
    subst hts
    subst hmsg
    refine ⟨by show s.picturesRemaining - 1 + 1 = s.picturesRemaining; omega,
      rfl, rfl, rfl, by simp [recordLocation], ?_, ?_⟩
    · show recordLocation s.photographedLocations _ _ _ = _
      unfold recordLocation
      rw [if_neg hneq]
    · rw [if_pos hz]
  · rw [if_neg hz] at htp
    rw [Prod.mk.injEq] at htp
    obtain ⟨hmsg, hts⟩ := htp
    subst hts
    subst hmsg
    refine ⟨by show s.picturesRemaining - 1 + 1 = s.picturesRemaining; omega,
      rfl, rfl, rfl, by simp [recordLocation], ?_, ?_⟩
    · show recordLocation s.photographedLocations _ _ _ = _
      unfold recordLocation
      rw [if_neg hneq]
    · rw [if_neg hz]

end DroneSafari

namespace DroneSafari

theorem tree_blocked_shot_witness :
    Reachable (runState initState treeBlockedCmds) ∧
    (runState initState treeBlockedCmds).gameOver = false ∧
    (takePicture (runState initState treeBlockedCmds)).2.picturesRemaining + 1
      = (runState initState treeBlockedCmds).picturesRemaining ∧
    (takePicture (runState initState treeBlockedCmds)).2.photographedLocations (8, 9)
      = some 1 ∧
    (takePicture (runState initState treeBlockedCmds)).2.elephantPhotographed = false := by
  have hr := reachable_runState initState Reachable.init treeBlockedCmds
  have h := tree_blocked_shot (runState initState treeBlockedCmds) hr
    (by decide) (by decide) (by decide) (by decide)
  exact ⟨hr, by decide, h.1, h.2.2.2.2.1, h.2.2.1.trans (by decide)⟩

/-- C8 (amended): get_status mutates nothing (it is a pure function of the
state) and reports position, facing, the per-target photographed map, the
picture counters, the move and turn counters, the photographed-location
map, the game_over and game_won flags, and the last message, each equal to
the corresponding engine field; it does not include the scared-cell set or
the failure reason. -/
theorem getStatus_reports_fields (s : GameState) :
    (getStatus s).position = s.dronePos ∧
    (getStatus s).facing = s.droneFacing ∧
    (getStatus s).animalsPhotographed
      = (s.zebraPhotographed, s.elephantPhotographed, s.oryxPhotographed) ∧
    (getStatus s).picturesRemaining = s.picturesRemaining ∧
    (getStatus s).picturesTaken = s.picturesTaken ∧
    (getStatus s).totalMoves = s.totalMoves ∧
    (getStatus s).totalTurns = s.totalTurns ∧
    (getStatus s).photographedLocations = s.photographedLocations ∧
    (getStatus s).gameOver = s.gameOver ∧
    (getStatus s).gameWon = s.gameWon ∧
    (getStatus s).message = s.message :=
  ⟨rfl, rfl, rfl, rfl, rfl, rfl, rfl, rfl, rfl, rfl, rfl⟩

/-- C8 (counterexample): two states that differ exactly in the scared-cell
set and in the failure reason yield identical get_status outputs, so a
caller of get_status cannot read either of them from the returned
structure, contrary to the claim that it exposes the scared set and the
success/failure kind. -/
theorem getStatus_hides_scared_and_reason :
    getStatus hiddenFieldsState = getStatus initState ∧
    hiddenFieldsState.scaredAnimals ≠ initState.scaredAnimals ∧
    hiddenFieldsState.failureReason ≠ initState.failureReason :=
  ⟨rfl, by decide, by decide⟩

end DroneSafari
